import Mathlib

/-!
Verification of the interrupt-driven monitor's time engine (`systime.c`) and
command interpreter (`query_handler.c`).

The C code is shallowly embedded: the global `systime_t`/`query_buffer_t`
state is passed explicitly, machine integers become `Nat` with an explicit
`% 2^w` wherever the C code can actually truncate or wrap, and each C
function becomes a Lean function returning its new state (and, where the C
function writes to the UART, the list of emitted strings).
-/

/-! ### Constants from `systime.h` -/

def MSEC_IN_TSEC : Nat := 100
def TSEC_IN_SEC : Nat := 10
def SEC_IN_MIN : Nat := 60
def MIN_IN_HOUR : Nat := 60
def HOUR_IN_DAY : Nat := 24

def TSEC_IN_MIN : Nat := TSEC_IN_SEC * SEC_IN_MIN
def TSEC_IN_HOUR : Nat := TSEC_IN_MIN * MIN_IN_HOUR
def TSEC_IN_DAY : Nat := TSEC_IN_HOUR * HOUR_IN_DAY

def MONTH_IN_YEAR : Nat := 12

/-- `IS_LEAP_YR(yr)` macro: `((yr % 4 == 0) && ((yr % 400 == 0) || (yr % 100 != 0)))`. -/
def IS_LEAP_YR (yr : Nat) : Bool :=
  yr % 4 == 0 && (yr % 400 == 0 || yr % 100 != 0)

/-! ### Data structures from `systime.h` -/

/-- `clock_t`: four `uint8_t` fields. Fields are modelled as `Nat`; in C each
field lives in `[0,255]`, and every arithmetic step of the embedded code that
can truncate to 8 bits or wrap at 32 bits carries an explicit `% 256` /
`% 2^32`. -/
structure clock_t where
  hour : Nat
  min : Nat
  sec : Nat
  t_sec : Nat
deriving Repr, DecidableEq

/-- `date_t`: `uint16_t year; uint8_t month; uint8_t day;`. -/
structure date_t where
  year : Nat
  month : Nat
  day : Nat
deriving Repr, DecidableEq

/-- `MONTH_DAYS[2][12]` from `systime.c`: day counts per month, row 0 for
non-leap years, row 1 for leap years. -/
def MONTH_DAYS : List (List Nat) :=
  [[31, 28, 31, 30, 31, 30, 31, 31, 30, 31, 30, 31],
   [31, 29, 31, 30, 31, 30, 31, 31, 30, 31, 30, 31]]

/-- `DaysInMonth(month, year)`: `MONTH_DAYS[IS_LEAP_YR(year)][month]`.
`month` is the 0-based row index, exactly as in the C code (callers pass
`month - 1`). An out-of-range index, which the C callers never produce,
is modelled as 0. -/
def DaysInMonth (month : Nat) (year : Nat) : Nat :=
  ((MONTH_DAYS.getD (if IS_LEAP_YR year then 1 else 0) []).getD month 0)

/-! ### `systime.c` operations

The engine's mutable state relevant to the claims is the tick counter
(`time.systick.counter.value`, a `uint32_t`) and the date (`time.date`).
Each function takes the piece of state it reads or writes and returns the
new value together with the C return value. -/

/-- `systime_ConvertClock`: `t_sec + sec*TSEC_IN_SEC + min*TSEC_IN_MIN +
hour*TSEC_IN_HOUR`. The four fields are `uint8_t` promoted to `int`; for
8-bit fields the sum is at most `255 * 36611 < 2^31`, so the C expression
never overflows and the plain `Nat` sum is exact. -/
def systime_ConvertClock (clock : clock_t) : Nat :=
  clock.t_sec + clock.sec * TSEC_IN_SEC + clock.min * TSEC_IN_MIN + clock.hour * TSEC_IN_HOUR

/-- `systime_ConvertTickCounter`: successive division of the `uint32_t`
tick count. Each quotient is stored into a `uint8_t` field (hence `% 256`),
and each `t_count -= ...` is a `uint32_t` subtraction (hence the
`+ 2^32 ... % 2^32` wrap-around form; the subtrahend is at most
`36000 * 255 < 2^32`). -/
def systime_ConvertTickCounter (t_count : Nat) : clock_t :=
  let hour := t_count / TSEC_IN_HOUR % 256
  let t1 := (t_count + 2 ^ 32 - TSEC_IN_HOUR * hour) % 2 ^ 32
  let min := t1 / TSEC_IN_MIN % 256
  let t2 := (t1 + 2 ^ 32 - TSEC_IN_MIN * min) % 2 ^ 32
  let sec := t2 / TSEC_IN_SEC % 256
  let t3 := (t2 + 2 ^ 32 - TSEC_IN_SEC * sec) % 2 ^ 32
  { hour := hour, min := min, sec := sec, t_sec := t3 % 256 }

/-- `systime_SetTime`: validates the clock fields, and on success overwrites
the tick counter with the converted clock. Returns `(retval, counter')`. -/
def systime_SetTime (new_clock : clock_t) (counter : Nat) : Bool × Nat :=
  if new_clock.t_sec < TSEC_IN_SEC ∧ new_clock.sec < SEC_IN_MIN ∧
     new_clock.min < MIN_IN_HOUR ∧ new_clock.hour < HOUR_IN_DAY then
    (true, systime_ConvertClock new_clock)
  else
    (false, counter)

/-- `systime_GetTime`: converts the current tick counter to a clock. -/
def systime_GetTime (counter : Nat) : clock_t :=
  systime_ConvertTickCounter counter

/-- `systime_SetDate`: validates year, month and day (day against the
leap-year-aware month length) and on success replaces the stored date
wholesale. Returns `(retval, date')`. -/
def systime_SetDate (new_date : date_t) (date : date_t) : Bool × date_t :=
  if new_date.year < 9999 ∧
     new_date.month > 0 ∧ new_date.month ≤ MONTH_IN_YEAR ∧
     new_date.day > 0 ∧ new_date.day ≤ DaysInMonth (new_date.month - 1) new_date.year then
    (true, new_date)
  else
    (false, date)

/-- `systime_IncDate_callback`: increments the day and cascades the
overflow into month and year. `day` and `month` are `uint8_t` and `year`
is `uint16_t`, so each increment carries its wrap. -/
def systime_IncDate_callback (date : date_t) : date_t :=
  let day := (date.day + 1) % 256
  if day > DaysInMonth (date.month - 1) date.year then
    let month := (date.month + 1) % 256
    if month > MONTH_IN_YEAR then
      { year := (date.year + 1) % 65536, month := 1, day := 1 }
    else
      { year := date.year, month := month, day := 1 }
  else
    { date with day := day }

/-! ### Helper lemmas -/

/-- For tick counts below one day (the reachable range of the counter), the
`uint8_t` truncations and `uint32_t` wrap-arounds in
`systime_ConvertTickCounter` are all identities, and the conversion is plain
place-value decomposition. -/
theorem convertTickCounter_eq_of_lt (t : Nat) (h : t < TSEC_IN_DAY) :
    systime_ConvertTickCounter t =
      { hour := t / 36000, min := t % 36000 / 600, sec := t % 600 / 10, t_sec := t % 10 } := by
  have hday : TSEC_IN_DAY = 864000 := by decide
  have hH : TSEC_IN_HOUR = 36000 := by decide
  have hM : TSEC_IN_MIN = 600 := by decide
  have hS : TSEC_IN_SEC = 10 := by decide
  rw [hday] at h
  simp only [systime_ConvertTickCounter, hH, hM, hS]
  have e1 : t / 36000 % 256 = t / 36000 := Nat.mod_eq_of_lt (by omega)
  rw [e1]
  have e2 : (t + 2 ^ 32 - 36000 * (t / 36000)) % 2 ^ 32 = t % 36000 := by omega
  rw [e2]
  have e3 : t % 36000 / 600 % 256 = t % 36000 / 600 := Nat.mod_eq_of_lt (by omega)
  rw [e3]
  have e4 : (t % 36000 + 2 ^ 32 - 600 * (t % 36000 / 600)) % 2 ^ 32 = t % 600 := by omega
  rw [e4]
  have e5 : t % 600 / 10 % 256 = t % 600 / 10 := Nat.mod_eq_of_lt (by omega)
  rw [e5]
  have e6 : (t % 600 + 2 ^ 32 - 10 * (t % 600 / 10)) % 2 ^ 32 = t % 10 := by omega
  rw [e6]
  have e7 : t % 10 % 256 = t % 10 := Nat.mod_eq_of_lt (by omega)
  rw [e7]

/-- C1: for every valid clock value (hour ≤ 23, minute ≤ 59, second ≤ 59,
tenth-second ≤ 9), `systime_ConvertClock` followed by
`systime_ConvertTickCounter` returns the original clock fields exactly. -/
theorem convertClock_roundtrip (c : clock_t)
    (hh : c.hour < 24) (hm : c.min < 60) (hs : c.sec < 60) (ht : c.t_sec < 10) :
    systime_ConvertTickCounter (systime_ConvertClock c) = c := by
  obtain ⟨hour, min, sec, t_sec⟩ := c
  dsimp only at hh hm hs ht
  have hH : TSEC_IN_HOUR = 36000 := by decide
  have hM : TSEC_IN_MIN = 600 := by decide
  have hS : TSEC_IN_SEC = 10 := by decide
  have hlt : systime_ConvertClock ⟨hour, min, sec, t_sec⟩ < TSEC_IN_DAY := by
    simp only [systime_ConvertClock, hH, hM, hS]
    have hD : TSEC_IN_DAY = 864000 := by decide
    rw [hD]
    omega
  rw [convertTickCounter_eq_of_lt _ hlt]
  simp only [systime_ConvertClock, hH, hM, hS, clock_t.mk.injEq]
  refine ⟨?_, ?_, ?_, ?_⟩ <;> omega

/-- Witness for C1 at the concrete clock 13:47:05.3. -/
theorem convertClock_roundtrip_witness :
    systime_ConvertTickCounter (systime_ConvertClock ⟨13, 47, 5, 3⟩) = ⟨13, 47, 5, 3⟩ :=
  convertClock_roundtrip ⟨13, 47, 5, 3⟩ (by decide) (by decide) (by decide) (by decide)

/-- C2: `systime_SetTime` succeeds exactly when every field is in its modular
range, on failure leaves the tick counter unchanged, and in particular
24:00:00.0 is rejected with the counter unchanged. -/
theorem systime_SetTime_spec (c : clock_t) (counter : Nat) :
    ((systime_SetTime c counter).1 = true ↔
      c.hour < 24 ∧ c.min < 60 ∧ c.sec < 60 ∧ c.t_sec < 10)
  ∧ ((systime_SetTime c counter).1 = false → (systime_SetTime c counter).2 = counter)
  ∧ systime_SetTime ⟨24, 0, 0, 0⟩ counter = (false, counter) := by
  have hcond : (c.t_sec < TSEC_IN_SEC ∧ c.sec < SEC_IN_MIN ∧
      c.min < MIN_IN_HOUR ∧ c.hour < HOUR_IN_DAY) ↔
      (c.hour < 24 ∧ c.min < 60 ∧ c.sec < 60 ∧ c.t_sec < 10) := by
    simp only [TSEC_IN_SEC, SEC_IN_MIN, MIN_IN_HOUR, HOUR_IN_DAY]
    tauto
  refine ⟨?_, ?_, ?_⟩
  · rw [systime_SetTime]
    split_ifs with h
    · simpa using hcond.mp h
    · simpa using fun hc => h (hcond.mpr hc)
  · rw [systime_SetTime]
    split_ifs with h
    · simp
    · simp
  · rw [systime_SetTime]
    norm_num [TSEC_IN_SEC, SEC_IN_MIN, MIN_IN_HOUR, HOUR_IN_DAY]

/-- Witness for C2: setting 24:00:00.0 over counter 7 fails and the counter
stays 7. -/
theorem systime_SetTime_spec_witness :
    (systime_SetTime ⟨24, 0, 0, 0⟩ 7).2 = 7 :=
  (systime_SetTime_spec ⟨24, 0, 0, 0⟩ 7).2.1 (by decide)

/-- C3: `systime_SetDate` succeeds exactly when month ∈ [1,12],
day ∈ [1, DaysInMonth(month,year)] under the leap-year rule, and year < 9999;
on success it installs the new date wholesale, on failure the stored date is
unchanged; 31-FEB-2021 is rejected with state unchanged and 29-FEB-2020 is
accepted. -/
theorem systime_SetDate_spec (nd : date_t) (st : date_t) :
    ((systime_SetDate nd st).1 = true ↔
      (1 ≤ nd.month ∧ nd.month ≤ 12 ∧ 1 ≤ nd.day ∧
       nd.day ≤ DaysInMonth (nd.month - 1) nd.year ∧ nd.year < 9999))
  ∧ ((systime_SetDate nd st).1 = true → (systime_SetDate nd st).2 = nd)
  ∧ ((systime_SetDate nd st).1 = false → (systime_SetDate nd st).2 = st)
  ∧ systime_SetDate ⟨2021, 2, 31⟩ st = (false, st)
  ∧ (systime_SetDate ⟨2020, 2, 29⟩ st).1 = true := by
  have hcond : (nd.year < 9999 ∧ nd.month > 0 ∧ nd.month ≤ MONTH_IN_YEAR ∧
      nd.day > 0 ∧ nd.day ≤ DaysInMonth (nd.month - 1) nd.year) ↔
      (1 ≤ nd.month ∧ nd.month ≤ 12 ∧ 1 ≤ nd.day ∧
       nd.day ≤ DaysInMonth (nd.month - 1) nd.year ∧ nd.year < 9999) := by
    simp only [MONTH_IN_YEAR]
    tauto
  refine ⟨?_, ?_, ?_, ?_, ?_⟩
  · rw [systime_SetDate]
    split_ifs with h
    · simpa using hcond.mp h
    · simpa using fun hc => h (hcond.mpr hc)
  · rw [systime_SetDate]
    split_ifs with h
    · simp
    · simp
  · rw [systime_SetDate]
    split_ifs with h
    · simp
    · simp
  · rw [systime_SetDate]
    norm_num [MONTH_IN_YEAR, DaysInMonth, MONTH_DAYS, IS_LEAP_YR]
  · rw [systime_SetDate]
    norm_num [MONTH_IN_YEAR, DaysInMonth, MONTH_DAYS, IS_LEAP_YR]

/-- Witness for C3: setting 29-FEB-2020 over the initial date installs
29-FEB-2020. -/
theorem systime_SetDate_spec_witness :
    (systime_SetDate ⟨2020, 2, 29⟩ ⟨0, 1, 1⟩).2 = ⟨2020, 2, 29⟩ :=
  (systime_SetDate_spec ⟨2020, 2, 29⟩ ⟨0, 1, 1⟩).2.1 (by decide)

/-- C4: `DaysInMonth` on February (0-based row index 1, the index the C
callers pass for February) returns 29 exactly for leap years as given by the
divisibility rule, 28 otherwise, and every other month's length is a fixed
conventional constant independent of the year. -/
theorem DaysInMonth_february_spec (year : Nat) :
    (DaysInMonth 1 year = 29 ↔ (year % 4 = 0 ∧ (year % 400 = 0 ∨ year % 100 ≠ 0)))
  ∧ (¬(year % 4 = 0 ∧ (year % 400 = 0 ∨ year % 100 ≠ 0)) → DaysInMonth 1 year = 28)
  ∧ (∀ m, m < 12 → m ≠ 1 →
      DaysInMonth m year = [31, 28, 31, 30, 31, 30, 31, 31, 30, 31, 30, 31].getD m 0) := by
  have hleap : IS_LEAP_YR year = true ↔
      (year % 4 = 0 ∧ (year % 400 = 0 ∨ year % 100 ≠ 0)) := by
    simp [IS_LEAP_YR]
  refine ⟨?_, ?_, ?_⟩
  · cases hly : IS_LEAP_YR year
    · rw [hly] at hleap
      have h28 : DaysInMonth 1 year = 28 := by simp [DaysInMonth, MONTH_DAYS, hly]
      rw [h28]
      constructor
      · intro h
        omega
      · intro hp
        exact absurd (hleap.mpr hp) (by simp)
    · rw [hly] at hleap
      have h29 : DaysInMonth 1 year = 29 := by simp [DaysInMonth, MONTH_DAYS, hly]
      rw [h29]
      exact iff_of_true rfl (hleap.mp rfl)
  · intro h
    cases hly : IS_LEAP_YR year
    · simp [DaysInMonth, MONTH_DAYS, hly]
    · exact absurd (hleap.mp hly) h
  · intro m hm hm1
    cases hly : IS_LEAP_YR year <;>
      · simp only [DaysInMonth, MONTH_DAYS, hly]
        interval_cases m <;> simp_all

/-- Witness for C4 at year 2021 (not a leap year) and month index 0
(January). -/
theorem DaysInMonth_february_spec_witness :
    DaysInMonth 1 2021 = 28 ∧ DaysInMonth 0 2021 = 31 :=
  ⟨(DaysInMonth_february_spec 2021).2.1 (by decide),
   (DaysInMonth_february_spec 2021).2.2 0 (by decide) (by decide)⟩

/-- The date invariant from the spec: month is 1-based in [1,12] and day
never exceeds the leap-year-aware month length. -/
def DateInv (d : date_t) : Prop :=
  1 ≤ d.month ∧ d.month ≤ 12 ∧ 1 ≤ d.day ∧ d.day ≤ DaysInMonth (d.month - 1) d.year

instance (d : date_t) : Decidable (DateInv d) := by
  unfold DateInv
  infer_instance

/-- Every in-range month row entry lies in [28, 31]. -/
theorem DaysInMonth_bounds (m y : Nat) (h : m < 12) :
    28 ≤ DaysInMonth m y ∧ DaysInMonth m y ≤ 31 := by
  cases hly : IS_LEAP_YR y <;>
    · simp only [DaysInMonth, MONTH_DAYS, hly]
      interval_cases m <;> simp

/-- C5: the date invariant is preserved by the day-rollover callback and by
every successful `systime_SetDate`. -/
theorem date_invariant_preserved :
    (∀ d : date_t, DateInv d → DateInv (systime_IncDate_callback d))
  ∧ (∀ nd st : date_t, (systime_SetDate nd st).1 = true →
      DateInv (systime_SetDate nd st).2) := by
  have h12 : MONTH_IN_YEAR = 12 := rfl
  have hJan : ∀ y : Nat, DaysInMonth 0 y = 31 := by
    intro y
    cases hly : IS_LEAP_YR y <;> simp [DaysInMonth, MONTH_DAYS, hly]
  constructor
  · intro d hd
    obtain ⟨year, month, day⟩ := d
    obtain ⟨h1, h2, h3, h4⟩ := hd
    dsimp only at h1 h2 h3 h4
    have hb := DaysInMonth_bounds (month - 1) year (by omega)
    simp only [systime_IncDate_callback, h12]
    have hday : (day + 1) % 256 = day + 1 := Nat.mod_eq_of_lt (by omega)
    have hmonth : (month + 1) % 256 = month + 1 := Nat.mod_eq_of_lt (by omega)
    rw [hday, hmonth]
    split_ifs with hc1 hc2
    · -- day overflowed and month overflowed: 1-JAN of the next year
      refine ⟨?_, ?_, ?_, ?_⟩
      · show 1 ≤ (1 : Nat)
        norm_num
      · show (1 : Nat) ≤ 12
        norm_num
      · show 1 ≤ (1 : Nat)
        norm_num
      show 1 ≤ DaysInMonth (1 - 1) ((year + 1) % 65536)
      rw [hJan]
      norm_num
    · -- day overflowed, month did not: first day of the next month
      have hb2 := DaysInMonth_bounds (month + 1 - 1) year (by omega)
      refine ⟨?_, ?_, ?_, ?_⟩
      · show 1 ≤ month + 1
        omega
      · show month + 1 ≤ 12
        omega
      · show 1 ≤ (1 : Nat)
        omega
      · show 1 ≤ DaysInMonth (month + 1 - 1) year
        omega
    · -- no overflow: same month, day + 1
      refine ⟨h1, h2, ?_, ?_⟩
      · show 1 ≤ day + 1
        omega
      · show day + 1 ≤ DaysInMonth (month - 1) year
        omega
  · intro nd st h
    rw [systime_SetDate] at h ⊢
    split_ifs at h ⊢ with hc
    obtain ⟨hy, hm0, hm1, hd0, hd1⟩ := hc
    rw [h12] at hm1
    exact ⟨hm0, hm1, hd0, hd1⟩

/-- Witness for C5: rolling over 28-FEB-2021 and installing 29-FEB-2020 both
yield invariant-satisfying dates. -/
theorem date_invariant_preserved_witness :
    DateInv (systime_IncDate_callback ⟨2021, 2, 28⟩) ∧
    DateInv (systime_SetDate ⟨2020, 2, 29⟩ ⟨0, 1, 1⟩).2 :=
  ⟨date_invariant_preserved.1 ⟨2021, 2, 28⟩ (by decide),
   date_invariant_preserved.2 ⟨2020, 2, 29⟩ ⟨0, 1, 1⟩ (by decide)⟩

/-! ### `query_handler.c`: alarm path -/

/-- Callback function pointers that occur in the program, as an enumerated
capability reference (`NULL` or `Alarm_callback`). -/
inductive cb_ref where
  | null
  | Alarm_callback
deriving Repr, DecidableEq

/-- The `countdown` part of the systick descriptor that `systime_SetAlarm`
and `systime_ClearAlarm` mutate. -/
structure countdown_t where
  en : Bool
  value : Nat
  countdown_cb : cb_ref
deriving Repr, DecidableEq

/-- `systime_SetAlarm`: stores the callback, converts the clock to a tick
target, enables the countdown, and always returns true. No field of
`alarm_clock` is validated. -/
def systime_SetAlarm (alarm_clock : clock_t) (alarm_cb : cb_ref) (cd : countdown_t) :
    Bool × countdown_t :=
  (true, { en := true, value := systime_ConvertClock alarm_clock, countdown_cb := alarm_cb })

/-- `systime_ClearAlarm`: disables the countdown. -/
def systime_ClearAlarm (cd : countdown_t) : countdown_t :=
  { cd with en := false }

/-- The absolute arm-time display computation inside `SetAlarm`
(`query_handler.c` lines 299-316): component-wise `uint8_t` sums of the
entered clock and the current time, then manual carries tested with strict
`>` against `TSEC_IN_SEC`/`SEC_IN_MIN`/`MIN_IN_HOUR`, and finally the hour
reduced `% HOUR_IN_DAY`. Every `uint8_t` store carries its `% 256`. -/
def SetAlarm_display (clock_temp current_time : clock_t) : clock_t :=
  let t_sec0 := (clock_temp.t_sec + current_time.t_sec) % 256
  let sec0 := (clock_temp.sec + current_time.sec) % 256
  let min0 := (clock_temp.min + current_time.min) % 256
  let hour0 := (clock_temp.hour + current_time.hour) % 256
  let t_sec1 := if t_sec0 > TSEC_IN_SEC then t_sec0 - TSEC_IN_SEC else t_sec0
  let sec1 := if t_sec0 > TSEC_IN_SEC then (sec0 + 1) % 256 else sec0
  let sec2 := if sec1 > SEC_IN_MIN then sec1 - SEC_IN_MIN else sec1
  let min1 := if sec1 > SEC_IN_MIN then (min0 + 1) % 256 else min0
  let min2 := if min1 > MIN_IN_HOUR then min1 - MIN_IN_HOUR else min1
  let hour1 := if min1 > MIN_IN_HOUR then (hour0 + 1) % 256 else hour0
  let hour2 := hour1 % HOUR_IN_DAY
  { hour := hour2, min := min2, sec := sec2, t_sec := t_sec1 }

/-- `SetAlarm` after a successful 4-field `sscanf`: arms the alarm through
`systime_SetAlarm` with `Alarm_callback`, reads the current time, and
computes the echoed absolute arm time. Returns
`(retval, countdown', displayed clock)`. -/
def SetAlarm (clock_temp : clock_t) (counter : Nat) (cd : countdown_t) :
    Bool × countdown_t × clock_t :=
  let res := systime_SetAlarm clock_temp .Alarm_callback cd
  let current_time := systime_GetTime counter
  (res.1, res.2, SetAlarm_display clock_temp current_time)

/-- C10: the ALARM set path performs no range validation: for every parsed
clock, `systime_SetAlarm` arms the countdown with the converted tick value
and returns true, and `SetAlarm` reports success; in particular 99:99:99.9
arms the alarm and is reported as success. -/
theorem SetAlarm_no_validation (c : clock_t) (counter : Nat) (cd : countdown_t) :
    (systime_SetAlarm c .Alarm_callback cd).1 = true
  ∧ (systime_SetAlarm c .Alarm_callback cd).2 =
      { en := true, value := systime_ConvertClock c, countdown_cb := .Alarm_callback }
  ∧ (SetAlarm c counter cd).1 = true
  ∧ (SetAlarm ⟨99, 99, 99, 9⟩ counter cd).1 = true
  ∧ (SetAlarm ⟨99, 99, 99, 9⟩ counter cd).2.1.en = true :=
  ⟨rfl, rfl, rfl, rfl, rfl⟩

/-- C6 counterexample: with the tick counter one tick before midnight
(863999 ticks = 23:59:59.9) and entered delta 00:00:00.1, the tenth-second
sum lands exactly on the carry threshold 10; the strict `>` test does not
carry, so the displayed arm time has tenth-second field 10 — outside the
valid range [0,9] — instead of the correct-carry result 00:00:00.0. -/
theorem SetAlarm_display_counterexample :
    (SetAlarm ⟨0, 0, 0, 1⟩ 863999 ⟨false, 0, .null⟩).2.2 = ⟨23, 59, 59, 10⟩
  ∧ ¬ ((SetAlarm ⟨0, 0, 0, 1⟩ 863999 ⟨false, 0, .null⟩).2.2.t_sec < 10) := by
  decide

set_option maxHeartbeats 2000000 in
/-- C6 (amended): for a valid entered clock and any reachable current time,
the displayed arm time is tick-equivalent modulo one day to
`current_time + entered_delta`, and each field sits at most one past its
valid range; when no field sum lands exactly on its strict `>` carry
threshold (tenths = 10, seconds = 60, minutes = 60) the display equals the
correct-carry sum with every field in range. -/
theorem SetAlarm_display_amended (e : clock_t) (counter : Nat) (cd : countdown_t)
    (hh : e.hour < 24) (hm : e.min < 60) (hs : e.sec < 60) (ht : e.t_sec < 10)
    (hcnt : counter < TSEC_IN_DAY) :
    (systime_ConvertClock ((SetAlarm e counter cd).2.2) % TSEC_IN_DAY =
       (systime_ConvertClock e + counter) % TSEC_IN_DAY)
  ∧ (SetAlarm e counter cd).2.2.t_sec ≤ 10
  ∧ (SetAlarm e counter cd).2.2.sec ≤ 60
  ∧ (SetAlarm e counter cd).2.2.min ≤ 60
  ∧ (SetAlarm e counter cd).2.2.hour < 24
  ∧ (e.t_sec + (systime_GetTime counter).t_sec ≠ 10 →
     e.sec + (systime_GetTime counter).sec +
       (if e.t_sec + (systime_GetTime counter).t_sec > 10 then 1 else 0) ≠ 60 →
     e.min + (systime_GetTime counter).min +
       (if e.sec + (systime_GetTime counter).sec +
            (if e.t_sec + (systime_GetTime counter).t_sec > 10 then 1 else 0) > 60
        then 1 else 0) ≠ 60 →
     (SetAlarm e counter cd).2.2 =
       systime_ConvertTickCounter ((systime_ConvertClock e + counter) % TSEC_IN_DAY)
     ∧ (SetAlarm e counter cd).2.2.t_sec < 10
     ∧ (SetAlarm e counter cd).2.2.sec < 60
     ∧ (SetAlarm e counter cd).2.2.min < 60) := by
  obtain ⟨hour, min, sec, t_sec⟩ := e
  dsimp only at hh hm hs ht
  have hD : TSEC_IN_DAY = 864000 := by decide
  have hH : TSEC_IN_HOUR = 36000 := by decide
  have hM : TSEC_IN_MIN = 600 := by decide
  have hS : TSEC_IN_SEC = 10 := by decide
  have hSm : SEC_IN_MIN = 60 := by decide
  have hMh : MIN_IN_HOUR = 60 := by decide
  have hHd : HOUR_IN_DAY = 24 := by decide
  have hcnt' : counter < 864000 := by rw [hD] at hcnt; exact hcnt
  have hget : systime_GetTime counter =
      ⟨counter / 36000, counter % 36000 / 600, counter % 600 / 10, counter % 10⟩ := by
    rw [systime_GetTime, convertTickCounter_eq_of_lt counter hcnt]
  have hT := convertTickCounter_eq_of_lt
    ((systime_ConvertClock ⟨hour, min, sec, t_sec⟩ + counter) % TSEC_IN_DAY)
    (Nat.mod_lt _ (by decide))
  simp only [SetAlarm, SetAlarm_display, systime_GetTime] at *
  simp only [hget, hT]
  have m1 : (t_sec + counter % 10) % 256 = t_sec + counter % 10 :=
    Nat.mod_eq_of_lt (by omega)
  have m2 : (sec + counter % 600 / 10) % 256 = sec + counter % 600 / 10 :=
    Nat.mod_eq_of_lt (by omega)
  have m3 : (min + counter % 36000 / 600) % 256 = min + counter % 36000 / 600 :=
    Nat.mod_eq_of_lt (by omega)
  have m4 : (hour + counter / 36000) % 256 = hour + counter / 36000 :=
    Nat.mod_eq_of_lt (by omega)
  have m5 : (sec + counter % 600 / 10 + 1) % 256 = sec + counter % 600 / 10 + 1 :=
    Nat.mod_eq_of_lt (by omega)
  have m6 : (min + counter % 36000 / 600 + 1) % 256 = min + counter % 36000 / 600 + 1 :=
    Nat.mod_eq_of_lt (by omega)
  have m7 : (hour + counter / 36000 + 1) % 256 = hour + counter / 36000 + 1 :=
    Nat.mod_eq_of_lt (by omega)
  simp only [hS, hSm, hMh, hHd, hD, m1, m2, m3, m4, m5, m6, m7,
    systime_ConvertClock, hM, hH, clock_t.mk.injEq]
  split_ifs <;> omega

/-- Witness for the amended C6 at entered clock 01:02:03.4 over counter 5
(current time 00:00:00.5): no sum hits a threshold, so the display is the
exact carry sum. -/
theorem SetAlarm_display_amended_witness :
    (SetAlarm ⟨1, 2, 3, 4⟩ 5 ⟨false, 0, .null⟩).2.2 =
      systime_ConvertTickCounter ((systime_ConvertClock ⟨1, 2, 3, 4⟩ + 5) % TSEC_IN_DAY) :=
  ((SetAlarm_display_amended ⟨1, 2, 3, 4⟩ 5 ⟨false, 0, .null⟩ (by decide) (by decide)
      (by decide) (by decide) (by decide)).2.2.2.2.2 (by decide) (by decide) (by decide)).1

/-! ### `query_handler.c`: date path month table -/

/-- The `MONTHS` table: the 3-letter abbreviations, as 3-character lists
(`memcmp(month_str, MONTHS[i], 3)` compares exactly these 3 bytes). -/
def MONTHS : List (List Char) :=
  [['J', 'A', 'N'], ['F', 'E', 'B'], ['M', 'A', 'R'], ['A', 'P', 'R'],
   ['M', 'A', 'Y'], ['J', 'U', 'N'], ['J', 'U', 'L'], ['A', 'U', 'G'],
   ['S', 'E', 'P'], ['O', 'C', 'T'], ['N', 'O', 'V'], ['D', 'E', 'C']]

/-- `FindMonthValue`: the while loop scans `MONTHS` with `memcmp(_, _, 3)`
and returns the first matching index, or 12 (`MONTH_IN_YEAR`, the loop exit
value of `i`) when no entry matches. `List.findIdx` returns the list length
— here 12 — when no element satisfies the predicate, which is exactly the
loop's behaviour. -/
def FindMonthValue (month_str : List Char) : Nat :=
  MONTHS.findIdx (fun m => month_str.take 3 == m.take 3)

theorem findIdx_eq_length_of_false {α : Type} (p : α → Bool) (l : List α)
    (h : ∀ a ∈ l, p a = false) : l.findIdx p = l.length := by
  induction l with
  | nil => rfl
  | cons a t ih =>
    rw [List.findIdx_cons, h a (List.mem_cons_self a t)]
    simp only [cond_false, List.length_cons]
    rw [ih (fun b hb => h b (List.mem_cons_of_mem a hb))]

/-- C7: a 3-byte month string matching none of the 12 table entries makes
`FindMonthValue` return the sentinel 12; the date handed to
`systime_SetDate` then has month 13, so the set-date command fails and the
stored date is unchanged. -/
theorem FindMonthValue_bad_month (s : List Char) (hlen : s.length = 3)
    (hbad : ∀ m ∈ MONTHS, s ≠ m) :
    FindMonthValue s = 12
  ∧ ∀ (day year : Nat) (st : date_t),
      systime_SetDate ⟨year, FindMonthValue s + 1, day⟩ st = (false, st) := by
  have htake : s.take 3 = s := by
    rw [← hlen]
    exact List.take_length s
  have h12 : FindMonthValue s = 12 := by
    rw [FindMonthValue, show (12 : Nat) = MONTHS.length from rfl]
    apply findIdx_eq_length_of_false
    intro m hm
    have hm3 : m.take 3 = m := by
      fin_cases hm <;> rfl
    show (s.take 3 == m.take 3) = false
    rw [htake, hm3, beq_eq_false_iff_ne]
    exact hbad m hm
  refine ⟨h12, ?_⟩
  intro day year st
  rw [h12, systime_SetDate]
  split_ifs with hc
  · exfalso
    rw [show MONTH_IN_YEAR = 12 from rfl] at hc
    dsimp only at hc
    omega
  · rfl

/-- Witness for C7 at the unrecognized month string "XYZ". -/
theorem FindMonthValue_bad_month_witness :
    FindMonthValue ['X', 'Y', 'Z'] = 12 :=
  (FindMonthValue_bad_month ['X', 'Y', 'Z'] (by decide) (by decide)).1

/-! ### `query_handler.c`: edit buffer and byte handling

`query_buffer_t` wraps the ring-buffer primitive (`circular_buffer_t`,
whose source is not part of this repository) plus `entry_ptr`. The ring
buffer's write pointer `wr_ptr` is repurposed as the edit cursor and its
storage as the line buffer, so the two are flattened into one structure
here; the fixed capacity is the length of `data`. -/

structure query_buffer_t where
  data : List Char
  wr_ptr : Nat
  entry_ptr : Nat
deriving Repr, DecidableEq

/-- Cursor-motion / control strings from `query_handler.c`. -/
def CURSOR_LEFT : String := "\x1b[D"

def CURSOR_RIGHT : String := "\x1b[C"

def CURSOR_UP : String := "\x1b[A"

def CURSOR_DOWN : String := "\x1b[B"

/-- Modelled from the spec: `enqueuec_s`, the ring-buffer safe insert used
by the interpreter (`circular_buffer.c` is not under `src/`). Spec section 6:
a fixed-capacity byte queue whose write pointer the interpreter repurposes
as its cursor; spec section 4.2: "attempt insert at cursor into buffer
capped at capacity; on overflow emit erase-echo instead" — so the insert
stores at `wr_ptr` and advances it when there is room, and fails leaving the
buffer unchanged when the buffer is full. -/
def enqueuec_s (q : query_buffer_t) (c : Char) : Bool × query_buffer_t :=
  if q.wr_ptr < q.data.length then
    (true, { q with data := q.data.set q.wr_ptr c, wr_ptr := q.wr_ptr + 1 })
  else
    (false, q)

/-- `CursorCodeCheck` after the two escape-sequence bytes have been read:
dispatch on the direction letter. Returns the new buffer state and the
strings echoed to the UART. The source's `while` loop in the 'B' case
advances `wr_ptr` up to `entry_ptr`, echoing one `CURSOR_RIGHT` per step. -/
def CursorCodeCheck (q : query_buffer_t) (code : Char) : query_buffer_t × List String :=
  match code with
  | 'A' => (q, [CURSOR_DOWN])
  | 'B' => ({ q with wr_ptr := max q.wr_ptr q.entry_ptr },
            CURSOR_UP :: List.replicate (q.entry_ptr - q.wr_ptr) CURSOR_RIGHT)
  | 'C' =>
    if q.wr_ptr < q.entry_ptr then ({ q with wr_ptr := q.wr_ptr + 1 }, [])
    else (q, [CURSOR_LEFT])
  | 'D' =>
    if q.wr_ptr > 0 then ({ q with wr_ptr := q.wr_ptr - 1 }, [])
    else (q, [CURSOR_RIGHT])
  | _ => (q, [])

/-- One unit of input to `QueryHandler_Update`: either a single byte, or an
ESC byte together with its complete two-byte arrow sequence (whose
direction letter is `code`). A lone ESC byte with the rest of the sequence
not yet arrived leaves the buffer untouched (the source busy-waits in
`CursorCodeCheck` without mutating the query buffer), so it is modelled as
`byte '\x1b'`. -/
inductive rx_input where
  | byte (c : Char)
  | esc (code : Char)

/-- `QueryHandler_Update`, restricted to its effect on the query buffer:
backspace/DEL moves both pointers back (or echoes a space at the left
edge); CR/LF dispatches the entry (which only touches engine state) and
resets both pointers; ESC defers to `CursorCodeCheck`; any other byte is
uppercased and inserted through `enqueuec_s`, after which `entry_ptr` is
pulled up to `wr_ptr` if the cursor moved past it. -/
def QueryHandler_Update (q : query_buffer_t) (inp : rx_input) : query_buffer_t :=
  match inp with
  | .byte c =>
    if c = '\x08' ∨ c = '\x7f' then
      if q.wr_ptr > 0 then
        { q with wr_ptr := q.wr_ptr - 1, entry_ptr := q.entry_ptr - 1 }
      else q
    else if c = '\r' ∨ c = '\n' then
      { q with entry_ptr := 0, wr_ptr := 0 }
    else if c = '\x1b' then
      q
    else
      let q1 := (enqueuec_s q c.toUpper).2
      if q1.entry_ptr < q1.wr_ptr then { q1 with entry_ptr := q1.wr_ptr } else q1
  | .esc code => (CursorCodeCheck q code).1

/-- The edit-buffer invariant: cursor ≤ committed length ≤ capacity. -/
def buffer_inv (q : query_buffer_t) : Prop :=
  q.wr_ptr ≤ q.entry_ptr ∧ q.entry_ptr ≤ q.data.length

instance (q : query_buffer_t) : Decidable (buffer_inv q) := by
  unfold buffer_inv
  infer_instance

/-- C8: the invariant `cursor ≤ entry_length ≤ capacity` is preserved by
every byte-handling operation of `QueryHandler_Update`, including the
complete arrow-key escape sequences handled by `CursorCodeCheck`. -/
theorem buffer_invariant_preserved (q : query_buffer_t) (inp : rx_input)
    (h : buffer_inv q) : buffer_inv (QueryHandler_Update q inp) := by
  obtain ⟨data, wr, entry⟩ := q
  obtain ⟨h1, h2⟩ := h
  dsimp only at h1 h2
  cases inp with
  | byte c =>
    simp only [QueryHandler_Update, enqueuec_s]
    split_ifs <;>
      · refine ⟨?_, ?_⟩ <;>
        · first
            | omega
            | (dsimp only at *
               first
                 | omega
                 | (simp only [List.length_set] at *
                    omega))
  | esc code =>
    show buffer_inv (CursorCodeCheck ⟨data, wr, entry⟩ code).1
    unfold CursorCodeCheck
    split <;>
      first
        | (refine ⟨?_, ?_⟩ <;>
            · first
                | omega
                | (dsimp only at *
                   omega))
        | (split_ifs <;>
            · refine ⟨?_, ?_⟩ <;>
              · first
                  | omega
                  | (dsimp only at *
                     omega))

/-- Witness for C8: inserting a byte into a half-full two-slot buffer keeps
the invariant. -/
theorem buffer_invariant_preserved_witness :
    buffer_inv (QueryHandler_Update ⟨['A', 'B'], 1, 2⟩ (.byte 'x')) :=
  buffer_invariant_preserved ⟨['A', 'B'], 1, 2⟩ (.byte 'x') (by decide)

/-- C9: the right-arrow handler ('C') advances the cursor exactly when
`cursor < entry_length` and otherwise leaves it unchanged while echoing one
compensating `CURSOR_LEFT`; the left-arrow handler ('D') retreats the
cursor exactly when `cursor > 0` and otherwise leaves it unchanged while
echoing one compensating `CURSOR_RIGHT`. -/
theorem cursor_arrow_spec (q : query_buffer_t) :
    ((q.wr_ptr < q.entry_ptr →
        CursorCodeCheck q 'C' = ({ q with wr_ptr := q.wr_ptr + 1 }, []))
   ∧ (¬ q.wr_ptr < q.entry_ptr →
        CursorCodeCheck q 'C' = (q, [CURSOR_LEFT])))
  ∧ ((q.wr_ptr > 0 →
        CursorCodeCheck q 'D' = ({ q with wr_ptr := q.wr_ptr - 1 }, []))
   ∧ (¬ q.wr_ptr > 0 →
        CursorCodeCheck q 'D' = (q, [CURSOR_RIGHT]))) := by
  refine ⟨⟨?_, ?_⟩, ⟨?_, ?_⟩⟩ <;> intro h <;> simp [CursorCodeCheck, h]

/-- Witness for C9 on a one-character entry with the cursor at its start. -/
theorem cursor_arrow_spec_witness :
    CursorCodeCheck ⟨['A'], 0, 1⟩ 'C' = (⟨['A'], 1, 1⟩, [])
  ∧ CursorCodeCheck ⟨['A'], 0, 1⟩ 'D' = (⟨['A'], 0, 1⟩, [CURSOR_RIGHT]) :=
  ⟨(cursor_arrow_spec ⟨['A'], 0, 1⟩).1.1 (by decide),
   (cursor_arrow_spec ⟨['A'], 0, 1⟩).2.2 (by decide)⟩
